import Mathlib

set_option maxHeartbeats 1000000

/-!
Shallow embedding of the anthropic-max-proxy service
(src/anthropic_max_proxy/{oauth,translator,main}.py) and proofs about it.

JSON values are modelled with integer-only numerics; dict lookups, Python
truthiness and the Python exceptions the code can raise (JSONDecodeError,
KeyError, TypeError, AttributeError, UnboundLocalError) are modelled
explicitly.  Wall-clock timestamps are modelled as integers (seconds).
-/

/-- JSON values as handled by the Python json module (integer-only numerics). -/
inductive Json where
  | null
  | bool (b : Bool)
  | num (n : Int)
  | str (s : String)
  | arr (items : List Json)
  | obj (fields : List (String × Json))
deriving Repr

/-- The Python exceptions relevant to the embedded code paths. -/
inductive PyErr where
  | jsonDecodeError
  | keyError
  | typeError
  | attributeError
  | unboundLocalError
deriving Repr, DecidableEq

/-- Lookup in a JSON object; later duplicate keys win, as in a Python dict
built by json.loads. -/
def objGet? (fields : List (String × Json)) (k : String) : Option Json :=
  (fields.reverse.find? (fun p => p.1 == k)).map (fun p => p.2)

/-- Python `d.get(k, default)`: raises AttributeError when the receiver is not
a dict. -/
def pyDictGetD (j : Json) (k : String) (d : Json) : Except PyErr Json :=
  match j with
  | Json.obj fields => Except.ok ((objGet? fields k).getD d)
  | _ => Except.error PyErr.attributeError

/-- Python truthiness of a JSON value. -/
def jsonTruthy : Json → Bool
  | Json.null => false
  | Json.bool b => b
  | Json.num n => n != 0
  | Json.str s => s != ""
  | Json.arr items => !items.isEmpty
  | Json.obj fields => !fields.isEmpty

/-! ## json.dumps (default separators, ASCII payloads) -/

/-- Escape one character for a JSON string literal. -/
def escChar (c : Char) : String :=
  if c = '"' then "\\\""
  else if c = '\\' then "\\\\"
  else if c = '\n' then "\\n"
  else if c = '\t' then "\\t"
  else if c = '\r' then "\\r"
  else String.singleton c

/-- Serialize a string as a JSON string literal. -/
def dumpsStr (s : String) : String :=
  "\"" ++ String.join (s.data.map escChar) ++ "\""

mutual

/-- json.dumps with the Python default separators. -/
def dumps : Json → String
  | Json.null => "null"
  | Json.bool true => "true"
  | Json.bool false => "false"
  | Json.num n => toString n
  | Json.str s => dumpsStr s
  | Json.arr items => "[" ++ dumpsItems items ++ "]"
  | Json.obj fields => "\x7b" ++ dumpsFields fields ++ "\x7d"

/-- Comma-joined serialization of array items. -/
def dumpsItems : List Json → String
  | [] => ""
  | [j] => dumps j
  | j :: rest => dumps j ++ ", " ++ dumpsItems rest

/-- Comma-joined serialization of object members. -/
def dumpsFields : List (String × Json) → String
  | [] => ""
  | [(k, v)] => dumpsStr k ++ ": " ++ dumps v
  | (k, v) :: rest => dumpsStr k ++ ": " ++ dumps v ++ ", " ++ dumpsFields rest

end

/-! ## json.loads (recursive-descent parser, fuelled) -/

/-- Skip JSON whitespace. -/
def skipWs : List Char → List Char
  | [] => []
  | c :: cs => if c = ' ' ∨ c = '\t' ∨ c = '\n' ∨ c = '\r' then skipWs cs else c :: cs

/-- Parse the characters of a JSON string literal after the opening quote;
returns the decoded characters and the remainder after the closing quote.
The \uXXXX escape form is not modelled. -/
def parseStrChars : Nat → List Char → Option (List Char × List Char)
  | 0, _ => none
  | _ + 1, [] => none
  | fuel + 1, c :: cs =>
    if c = '"' then some ([], cs)
    else if c = '\\' then
      match cs with
      | [] => none
      | e :: cs2 =>
        let dec? : Option Char :=
          if e = '"' then some '"'
          else if e = '\\' then some '\\'
          else if e = '/' then some '/'
          else if e = 'n' then some '\n'
          else if e = 't' then some '\t'
          else if e = 'r' then some '\r'
          else if e = 'b' then some (Char.ofNat 8)
          else if e = 'f' then some (Char.ofNat 12)
          else none
        match dec? with
        | none => none
        | some d =>
          match parseStrChars fuel cs2 with
          | none => none
          | some (s, rest) => some (d :: s, rest)
    else
      match parseStrChars fuel cs with
      | none => none
      | some (s, rest) => some (c :: s, rest)

/-- Take a maximal run of decimal digits. -/
def takeDigits : List Char → (List Char × List Char)
  | [] => ([], [])
  | c :: cs =>
    if c.isDigit then
      let p := takeDigits cs
      (c :: p.1, p.2)
    else ([], c :: cs)

/-- Decimal digits to a natural number. -/
def digitsToNat (ds : List Char) : Nat :=
  ds.foldl (fun a c => a * 10 + (c.toNat - 48)) 0

mutual

/-- Parse one JSON value (fuelled); returns the value and the remainder. -/
def parseVal : Nat → List Char → Option (Json × List Char)
  | 0, _ => none
  | fuel + 1, cs0 =>
    match skipWs cs0 with
    | [] => none
    | '\x7b' :: rest =>
      match skipWs rest with
      | '\x7d' :: r2 => some (Json.obj [], r2)
      | _ => (parseMembers fuel rest).map (fun p => (Json.obj p.1, p.2))
    | '[' :: rest =>
      match skipWs rest with
      | ']' :: r2 => some (Json.arr [], r2)
      | _ => (parseItems fuel rest).map (fun p => (Json.arr p.1, p.2))
    | '"' :: rest =>
      (parseStrChars (rest.length + 1) rest).map
        (fun p => (Json.str (String.mk p.1), p.2))
    | '-' :: rest =>
      match takeDigits rest with
      | ([], _) => none
      | (ds, r) => some (Json.num (-(digitsToNat ds : Int)), r)
    | c :: rest =>
      if c = 't' then
        match rest with
        | 'r' :: 'u' :: 'e' :: r => some (Json.bool true, r)
        | _ => none
      else if c = 'f' then
        match rest with
        | 'a' :: 'l' :: 's' :: 'e' :: r => some (Json.bool false, r)
        | _ => none
      else if c = 'n' then
        match rest with
        | 'u' :: 'l' :: 'l' :: r => some (Json.null, r)
        | _ => none
      else if c.isDigit then
        let p := takeDigits (c :: rest)
        some (Json.num (digitsToNat p.1 : Int), p.2)
      else none

/-- Parse the members of a JSON object after the opening brace. -/
def parseMembers : Nat → List Char → Option (List (String × Json) × List Char)
  | 0, _ => none
  | fuel + 1, cs =>
    match skipWs cs with
    | '"' :: rest =>
      match parseStrChars (rest.length + 1) rest with
      | none => none
      | some (kcs, rest2) =>
        match skipWs rest2 with
        | ':' :: rest3 =>
          match parseVal fuel rest3 with
          | none => none
          | some (v, rest4) =>
            match skipWs rest4 with
            | ',' :: rest5 =>
              (parseMembers fuel rest5).map
                (fun p => ((String.mk kcs, v) :: p.1, p.2))
            | '\x7d' :: rest5 => some ([(String.mk kcs, v)], rest5)
            | _ => none
        | _ => none
    | _ => none

/-- Parse the items of a JSON array after the opening bracket. -/
def parseItems : Nat → List Char → Option (List Json × List Char)
  | 0, _ => none
  | fuel + 1, cs =>
    match parseVal fuel cs with
    | none => none
    | some (v, rest) =>
      match skipWs rest with
      | ',' :: rest2 => (parseItems fuel rest2).map (fun p => (v :: p.1, p.2))
      | ']' :: rest2 => some ([v], rest2)
      | _ => none

end

/-- json.loads: parse a whole document, requiring only trailing whitespace. -/
def parseJson (s : String) : Option Json :=
  match parseVal (s.length + 2) s.data with
  | none => none
  | some (j, rest) => if skipWs rest = [] then some j else none

example : parseJson "\x7b\x7d" = some (Json.obj []) := by rfl

example : parseJson "not-json" = none := by rfl

example : parseJson "[]" = some (Json.arr []) := by rfl

example : parseJson " \x7b\"a\": [1, -2, null], \"b\": \"x\"\x7d " =
    some (Json.obj [("a", Json.arr [Json.num 1, Json.num (-2), Json.null]),
                    ("b", Json.str "x")]) := by rfl

example : dumps (Json.obj [("error", Json.str "oops")]) =
    "\x7b\"error\": \"oops\"\x7d" := by rfl

/-! ## translator.py: messages and tools -/

/-- A downstream (OpenAI-style) chat message, restricted to the fields the
translator reads (msg.get("role", ""), msg.get("content", ""),
msg.get("tool_call_id", "")); contents are modelled as strings, the shape the
translator handles. -/
structure OpenAIMessage where
  role : Option String
  content : Option String
  tool_call_id : Option String := none
deriving Repr, DecidableEq

/-- The tool_result block built for a downstream tool message. -/
structure ToolResultBlock where
  tool_use_id : String
  content : String
deriving Repr, DecidableEq

/-- Upstream (Anthropic-style) message content: a plain string, or the
single-block list built for tool results. -/
inductive AnthContent where
  | str (s : String)
  | blocks (bs : List ToolResultBlock)
deriving Repr, DecidableEq

/-- An upstream (Anthropic-style) message. -/
structure AnthMessage where
  role : String
  content : AnthContent
deriving Repr, DecidableEq

/-- Python truthiness of an optional string (None and "" are falsy). -/
def strTruthy : Option String → Bool
  | none => false
  | some s => s != ""

/-- One iteration of the message loop of openai_to_anthropic_messages; the
accumulator is (system_prompt, anthropic_messages). -/
def msgStep (acc : Option String × List AnthMessage) (msg : OpenAIMessage) :
    Option String × List AnthMessage :=
  let role := msg.role.getD ""
  let content := msg.content.getD ""
  if role = "system" then
    if strTruthy acc.1 then (some (acc.1.getD "" ++ "\n\n" ++ content), acc.2)
    else (some content, acc.2)
  else if role = "user" then
    (acc.1, acc.2 ++ [⟨"user", AnthContent.str content⟩])
  else if role = "assistant" then
    (acc.1, acc.2 ++ [⟨"assistant", AnthContent.str content⟩])
  else if role = "tool" then
    (acc.1, acc.2 ++
      [⟨"user", AnthContent.blocks [⟨msg.tool_call_id.getD "", content⟩]⟩])
  else acc

/-- translator.openai_to_anthropic_messages: returns (system_prompt,
anthropic_messages). -/
def openai_to_anthropic_messages (messages : List OpenAIMessage) :
    Option String × List AnthMessage :=
  messages.foldl msgStep (none, [])

/-- The nested "function" object of a downstream tool entry. -/
structure ToolFunction where
  name : Option String
  description : Option String
  parameters : Option Json
deriving Repr

/-- A downstream tool entry, restricted to the fields the translator reads. -/
structure OpenAITool where
  ttype : Option String
  function : Option ToolFunction
deriving Repr

/-- An upstream tool entry. -/
structure AnthTool where
  name : String
  description : String
  input_schema : Json
deriving Repr

/-- The loop body of openai_to_anthropic_tools for a function-typed entry:
func = the nested function object (default empty) and its name, description
and parameters reads with their defaults. -/
def anthToolOf (tool : OpenAITool) : AnthTool :=
  let func := tool.function.getD ⟨none, none, none⟩
  ⟨func.name.getD "", func.description.getD "", func.parameters.getD (Json.obj [])⟩

/-- translator.openai_to_anthropic_tools. -/
def openai_to_anthropic_tools (tools : Option (List OpenAITool)) :
    Option (List AnthTool) :=
  match tools with
  | none => none
  | some ts =>
    if ts.isEmpty then none
    else
      let anthropic_tools := ts.foldl
        (fun (acc : List AnthTool) tool =>
          if tool.ttype == some "function" then acc ++ [anthToolOf tool]
          else acc)
        []
      if anthropic_tools.isEmpty then none else some anthropic_tools

/-! ## translator.py: streaming event translation -/

/-- Equality of a JSON value with a string literal, as Python == against str. -/
def jsonEqStr (j : Json) (s : String) : Bool :=
  match j with
  | Json.str t => t == s
  | _ => false

/-- The finish_reason_map dict lookup with default "stop"; an unhashable key
(list or dict) raises TypeError as in Python. -/
def finishReasonGet (j : Json) : Except PyErr String :=
  match j with
  | Json.str s =>
    Except.ok (if s = "end_turn" then "stop"
      else if s = "max_tokens" then "length"
      else if s = "stop_sequence" then "stop"
      else if s = "tool_use" then "tool_calls"
      else "stop")
  | Json.arr _ => Except.error PyErr.typeError
  | Json.obj _ => Except.error PyErr.typeError
  | _ => Except.ok "stop"

/-- The OpenAI chunk skeleton repeated throughout
anthropic_stream_to_openai_stream. -/
def chunkJson (idv : Json) (created : Int) (model : String) (delta : Json)
    (finish : Json) : Json :=
  Json.obj [("id", idv),
            ("object", Json.str "chat.completion.chunk"),
            ("created", Json.num created),
            ("model", Json.str model),
            ("choices", Json.arr [Json.obj
              [("index", Json.num 0),
               ("delta", delta),
               ("finish_reason", finish)]])]

/-- translator.anthropic_stream_to_openai_stream; created is the wall-clock
value int(time.time()) read by the source. -/
def anthropic_stream_to_openai_stream (created : Int) (event_type : String)
    (data : Json) (model : String) : Except PyErr (Option Json) :=
  if event_type = "message_start" then do
    let m ← pyDictGetD data "message" (Json.obj [])
    let idv ← pyDictGetD m "id" (Json.str "chatcmpl-anthropic")
    return some (chunkJson idv created model
      (Json.obj [("role", Json.str "assistant"), ("content", Json.str "")])
      Json.null)
  else if event_type = "content_block_delta" then do
    let delta ← pyDictGetD data "delta" (Json.obj [])
    let tv ← pyDictGetD delta "type" Json.null
    if jsonEqStr tv "text_delta" then
      let text ← pyDictGetD delta "text" (Json.str "")
      return some (chunkJson (Json.str "chatcmpl-anthropic") created model
        (Json.obj [("content", text)]) Json.null)
    else if jsonEqStr tv "input_json_delta" then
      let index ← pyDictGetD data "index" (Json.num 0)
      let pj ← pyDictGetD delta "partial_json" (Json.str "")
      return some (chunkJson (Json.str "chatcmpl-anthropic") created model
        (Json.obj [("tool_calls", Json.arr [Json.obj
          [("index", index),
           ("function", Json.obj [("arguments", pj)])]])])
        Json.null)
    else
      return none
  else if event_type = "content_block_start" then do
    let block ← pyDictGetD data "content_block" (Json.obj [])
    let bt ← pyDictGetD block "type" Json.null
    if jsonEqStr bt "tool_use" then
      let index ← pyDictGetD data "index" (Json.num 0)
      let bid ← pyDictGetD block "id" (Json.str "")
      let bname ← pyDictGetD block "name" (Json.str "")
      return some (chunkJson (Json.str "chatcmpl-anthropic") created model
        (Json.obj [("tool_calls", Json.arr [Json.obj
          [("index", index),
           ("id", bid),
           ("type", Json.str "function"),
           ("function", Json.obj [("name", bname), ("arguments", Json.str "")])]])])
        Json.null)
    else
      return none
  else if event_type = "message_delta" then do
    let delta ← pyDictGetD data "delta" (Json.obj [])
    let sr ← pyDictGetD delta "stop_reason" Json.null
    if jsonTruthy sr then
      let fr ← finishReasonGet sr
      return some (chunkJson (Json.str "chatcmpl-anthropic") created model
        (Json.obj []) (Json.str fr))
    else
      return none
  else if event_type = "message_stop" then
    return some (chunkJson (Json.str "chatcmpl-anthropic") created model
      (Json.obj []) (Json.str "stop"))
  else
    return none

/-! ## main.py: the streaming generator -/

/-- Do the characters of the first list start with the second list. -/
def charsStartWith : List Char → List Char → Bool
  | _, [] => true
  | [], _ :: _ => false
  | c :: cs, p :: ps => p == c && charsStartWith cs ps

/-- Python str.startswith (structural, so that it evaluates in the kernel). -/
def pyStartsWith (s pre : String) : Bool :=
  charsStartWith s.data pre.data

/-- Python s[n:] (structural, so that it evaluates in the kernel). -/
def pyDrop (s : String) (n : Nat) : String :=
  String.mk (s.data.drop n)

/-- Loop state of the generate coroutine: the event_type local (None while it
has never been assigned) and the chunks yielded so far. -/
structure GenState where
  event_type : Option String
  emitted : List String
deriving Repr

/-- The terminal sentinel emitted by the generator. -/
def doneSentinel : String := "data: [DONE]\n\n"

/-- One iteration of the async-for loop in generate; an uncaught exception is
an error result (json.JSONDecodeError alone is caught and skips the line). -/
def processLine (created : Int) (model : String) (st : GenState) (line : String) :
    Except PyErr GenState :=
  if line = "" then Except.ok st
  else if pyStartsWith line "event: " then
    Except.ok { st with event_type := some (pyDrop line 7) }
  else if pyStartsWith line "data: " then
    match parseJson (pyDrop line 6) with
    | none => Except.ok st
    | some data =>
      match st.event_type with
      | none => Except.error PyErr.unboundLocalError
      | some et =>
        match anthropic_stream_to_openai_stream created et data model with
        | Except.error e => Except.error e
        | Except.ok none => Except.ok st
        | Except.ok (some chunk) =>
          Except.ok { st with emitted :=
            st.emitted ++ ["data: " ++ dumps chunk ++ "\n\n"] }
  else Except.ok st

/-- main._handle_streaming.generate, over a clean upstream line sequence:
on a non-success upstream status it yields one error chunk and returns; on a
success status it transcodes every line and then yields the sentinel; an
uncaught exception aborts the whole stream. -/
def generate (success : Bool) (errorBody : String) (created : Int)
    (model : String) (lines : List String) : Except PyErr (List String) :=
  if !success then
    Except.ok ["data: " ++ dumps (Json.obj [("error", Json.str errorBody)]) ++ "\n\n"]
  else
    match lines.foldlM (processLine created model) ⟨none, []⟩ with
    | Except.error e => Except.error e
    | Except.ok st => Except.ok (st.emitted ++ [doneSentinel])

example : generate true "" 0 "m" ["data: \x7b\x7d"] =
    Except.error PyErr.unboundLocalError := by rfl

example : generate true "" 0 "m" ["data: nope"] =
    Except.ok [doneSentinel] := by rfl

example : generate false "oops" 0 "m" [] =
    Except.ok ["data: \x7b\"error\": \"oops\"\x7d\n\n"] := by rfl

/-! ## oauth.py: SHA-256 (hashlib.sha256) -/

/-- 2 to the 32nd, the word modulus of SHA-256. -/
def w32 : Nat := 4294967296

/-- Rotate a 32-bit word right by n. -/
def rotr32 (n x : Nat) : Nat := ((x >>> n) ||| (x <<< (32 - n))) % w32

/-- Bitwise complement within 32 bits. -/
def not32 (x : Nat) : Nat := 4294967295 ^^^ x

/-- Three-way xor. -/
def xor3 (a b c : Nat) : Nat := (a ^^^ b) ^^^ c

/-- The Sigma0 function of SHA-256. -/
def bigS0 (x : Nat) : Nat := xor3 (rotr32 2 x) (rotr32 13 x) (rotr32 22 x)

/-- The Sigma1 function of SHA-256. -/
def bigS1 (x : Nat) : Nat := xor3 (rotr32 6 x) (rotr32 11 x) (rotr32 25 x)

/-- The sigma0 function of SHA-256. -/
def smallS0 (x : Nat) : Nat := xor3 (rotr32 7 x) (rotr32 18 x) (x >>> 3)

/-- The sigma1 function of SHA-256. -/
def smallS1 (x : Nat) : Nat := xor3 (rotr32 17 x) (rotr32 19 x) (x >>> 10)

/-- The Ch function of SHA-256. -/
def chFn (x y z : Nat) : Nat := (x &&& y) ^^^ (not32 x &&& z)

/-- The Maj function of SHA-256. -/
def majFn (x y z : Nat) : Nat := xor3 (x &&& y) (x &&& z) (y &&& z)

/-- The 64 round constants of SHA-256. -/
def sha256K : List Nat :=
  [1116352408, 1899447441, 3049323471, 3921009573, 961987163,
   1508970993, 2453635748, 2870763221, 3624381080, 310598401,
   607225278, 1426881987, 1925078388, 2162078206, 2614888103,
   3248222580, 3835390401, 4022224774, 264347078, 604807628,
   770255983, 1249150122, 1555081692, 1996064986, 2554220882,
   2821834349, 2952996808, 3210313671, 3336571891, 3584528711,
   113926993, 338241895, 666307205, 773529912, 1294757372,
   1396182291, 1695183700, 1986661051, 2177026350, 2456956037,
   2730485921, 2820302411, 3259730800, 3345764771, 3516065817,
   3600352804, 4094571909, 275423344, 430227734, 506948616,
   659060556, 883997877, 958139571, 1322822218, 1537002063,
   1747873779, 1955562222, 2024104815, 2227730452, 2361852424,
   2428436474, 2756734187, 3204031479, 3329325298]

/-- SHA-256 padding of a byte message. -/
def sha256Pad (msg : List Nat) : List Nat :=
  let L := msg.length
  let k := (119 - L % 64) % 64
  msg ++ [128] ++ List.replicate k 0 ++
    ([56, 48, 40, 32, 24, 16, 8, 0].map (fun s => ((8 * L) >>> s) % 256))

/-- Big-endian 32-bit words from bytes. -/
def bytesToWords : List Nat → List Nat
  | a :: b :: c :: d :: rest =>
    (((a * 256 + b) * 256 + c) * 256 + d) :: bytesToWords rest
  | _ => []

/-- Split a byte list into 64-byte chunks. -/
def chunks64 (bs : List Nat) : List (List Nat) :=
  match bs with
  | [] => []
  | b :: rest => (b :: rest).take 64 :: chunks64 (rest.drop 63)
termination_by bs.length
decreasing_by simp; omega

/-- Extend a 16-word block by n scheduled words. -/
def extendSchedule (ws : List Nat) : Nat → List Nat
  | 0 => ws
  | n + 1 =>
    let w := extendSchedule ws n
    let i := w.length
    w ++ [(w.getD (i - 16) 0 + smallS0 (w.getD (i - 15) 0) +
           w.getD (i - 7) 0 + smallS1 (w.getD (i - 2) 0)) % w32]

/-- The eight working variables of the SHA-256 compression loop. -/
structure Sha256State where
  a : Nat
  b : Nat
  c : Nat
  d : Nat
  e : Nat
  f : Nat
  g : Nat
  h : Nat
deriving Repr

/-- One SHA-256 round on (round constant, scheduled word). -/
def sha256Round (st : Sha256State) (kw : Nat × Nat) : Sha256State :=
  let t1 := (st.h + bigS1 st.e + chFn st.e st.f st.g + kw.1 + kw.2) % w32
  let t2 := (bigS0 st.a + majFn st.a st.b st.c) % w32
  ⟨(t1 + t2) % w32, st.a, st.b, st.c, (st.d + t1) % w32, st.e, st.f, st.g⟩

/-- Compress one 64-byte chunk into the running hash state. -/
def sha256Compress (st : Sha256State) (chunk : List Nat) : Sha256State :=
  let ws := extendSchedule (bytesToWords chunk) 48
  let r := (List.zip sha256K ws).foldl sha256Round st
  ⟨(st.a + r.a) % w32, (st.b + r.b) % w32, (st.c + r.c) % w32,
   (st.d + r.d) % w32, (st.e + r.e) % w32, (st.f + r.f) % w32,
   (st.g + r.g) % w32, (st.h + r.h) % w32⟩

/-- Big-endian bytes of a 32-bit word. -/
def wordBytes (x : Nat) : List Nat :=
  [(x >>> 24) % 256, (x >>> 16) % 256, (x >>> 8) % 256, x % 256]

/-- hashlib.sha256(...).digest() over a byte message. -/
def sha256 (msg : List Nat) : List Nat :=
  let init : Sha256State :=
    ⟨1779033703, 3144134277, 1013904242, 2773480762,
     1359893119, 2600822924, 528734635, 1541459225⟩
  let fin := (chunks64 (sha256Pad msg)).foldl sha256Compress init
  wordBytes fin.a ++ wordBytes fin.b ++ wordBytes fin.c ++ wordBytes fin.d ++
  wordBytes fin.e ++ wordBytes fin.f ++ wordBytes fin.g ++ wordBytes fin.h

/-! ## oauth.py: URL-safe base64 and PKCE -/

/-- The URL-safe base64 alphabet. -/
def b64UrlChars : List Char :=
  ((List.range 26).map (fun i => Char.ofNat (65 + i))) ++
  ((List.range 26).map (fun i => Char.ofNat (97 + i))) ++
  ((List.range 10).map (fun i => Char.ofNat (48 + i))) ++ ['-', '_']

/-- Index into the URL-safe base64 alphabet. -/
def b64char (n : Nat) : Char := b64UrlChars.getD n 'A'

/-- URL-safe base64ing of bytes, without padding, as characters
(base64.urlsafe_b64encode(...).decode().rstrip of the padding, and the
encoding inside secrets.token_urlsafe). -/
def b64UrlNopadChars : List Nat → List Char
  | [] => []
  | [a] => [b64char (a / 4), b64char (a % 4 * 16)]
  | [a, b] => [b64char (a / 4), b64char (a % 4 * 16 + b / 16), b64char (b % 16 * 4)]
  | a :: b :: c :: rest =>
    b64char (a / 4) :: b64char (a % 4 * 16 + b / 16) ::
    b64char (b % 16 * 4 + c / 64) :: b64char (c % 64) :: b64UrlNopadChars rest

/-- URL-safe base64 without padding, as a string. -/
def b64UrlNopad (bs : List Nat) : String := String.mk (b64UrlNopadChars bs)

/-- str.encode() of an ASCII string (the base64url alphabet is ASCII). -/
def strEncode (s : String) : List Nat := s.data.map Char.toNat

/-- oauth.PKCEChallenge. -/
structure PKCEChallenge where
  verifier : String
  challenge : String
deriving Repr, DecidableEq

/-- oauth.generate_pkce as a function of the 32 random bytes drawn by
secrets.token_urlsafe(32). -/
def generate_pkce (randomBytes : List Nat) : PKCEChallenge :=
  let verifier := b64UrlNopad randomBytes
  let digest := sha256 (strEncode verifier)
  let challenge := b64UrlNopad digest
  ⟨verifier, challenge⟩

/-! ## oauth.py: exchange_code code/state splitting -/

/-- Python str.split on a single-character separator. -/
def pySplitChar (sep : Char) : List Char → List (List Char)
  | [] => [[]]
  | c :: cs =>
    let r := pySplitChar sep cs
    if c = sep then [] :: r
    else
      match r with
      | [] => [[c]]
      | seg :: rest => (c :: seg) :: rest

/-- Python str.split with a one-character separator string. -/
def pySplit (s : String) (sep : Char) : List String :=
  (pySplitChar sep s.data).map String.mk

/-- The (code, state) pair exchange_code sends to the token endpoint:
splits = code.split of the hash sign; code is splits[0] and state is
splits[1] when there are at least two segments, else the empty string. -/
def exchange_code_fields (code : String) : String × String :=
  let splits := pySplit code '#'
  (splits.headD "", if splits.length > 1 then splits.getD 1 "" else "")

example : exchange_code_fields "abc" = ("abc", "") := by rfl

example : exchange_code_fields "abc#st" = ("abc", "st") := by rfl

/-! ## oauth.py: OAuthTokens and TokenManager -/

/-- oauth.OAuthTokens; expires_at is a Unix timestamp in seconds. -/
structure OAuthTokens where
  access_token : String
  refresh_token : String
  expires_at : Int
deriving Repr, DecidableEq

/-- OAuthTokens.is_expired at wall-clock instant now; the source default for
buffer_seconds is 60. -/
def OAuthTokens.is_expired (t : OAuthTokens) (now : Int) (buffer_seconds : Int) : Bool :=
  now ≥ t.expires_at - buffer_seconds

/-- OAuthTokens as built by OAuthTokens.from_dict: Python performs no type
checking, so each field holds whatever JSON value the file supplied. -/
structure DynTokens where
  access_token : Json
  refresh_token : Json
  expires_at : Json
deriving Repr

/-- Python data[k] on a parsed JSON value: KeyError on a dict missing the key,
TypeError on a non-dict receiver. -/
def pySubscript (j : Json) (k : String) : Except PyErr Json :=
  match j with
  | Json.obj fields =>
    match objGet? fields k with
    | some v => Except.ok v
    | none => Except.error PyErr.keyError
  | _ => Except.error PyErr.typeError

/-- OAuthTokens.from_dict over a parsed JSON value. -/
def from_dict (data : Json) : Except PyErr DynTokens := do
  let a ← pySubscript data "access_token"
  let r ← pySubscript data "refresh_token"
  let e ← pySubscript data "expires_at"
  return ⟨a, r, e⟩

/-- TokenManager.load with an empty cache, as a function of the file content
(none when the file does not exist).  The except clause of the source catches
json.JSONDecodeError and KeyError only; any other exception propagates. -/
def tokenManagerLoadFile (fileContent : Option String) :
    Except PyErr (Option DynTokens) :=
  match fileContent with
  | none => Except.ok none
  | some content =>
    match parseJson content with
    | none => Except.ok none
    | some data =>
      match from_dict data with
      | Except.ok t => Except.ok (some t)
      | Except.error PyErr.keyError => Except.ok none
      | Except.error e => Except.error e

/-! ## oauth.py: the filesystem trace of TokenManager.save -/

/-- The filesystem operations TokenManager.save performs on the token file, in
source order: write_text of the credential bytes first, chmod 0o600 second. -/
inductive FsOp where
  | writeText (content : String)
  | chmod (mode : Nat)
deriving Repr

/-- The token file content written by save, json.dumps(tokens.to_dict(),
indent=2); its only role in the claims is being the credential bytes. -/
def tokensFileContent (t : OAuthTokens) : String :=
  "\x7b\n  \"access_token\": " ++ dumpsStr t.access_token ++
  ",\n  \"refresh_token\": " ++ dumpsStr t.refresh_token ++
  ",\n  \"expires_at\": " ++ toString t.expires_at ++ "\n\x7d"

/-- TokenManager.save as its ordered filesystem operations. -/
def saveOps (t : OAuthTokens) : List FsOp :=
  [FsOp.writeText (tokensFileContent t), FsOp.chmod 0o600]

/-- State of the token file on disk. -/
structure FileState where
  present : Bool
  mode : Nat
  content : String
deriving Repr

/-- POSIX creation mode of a plain file freshly created under the given umask
(Path.write_text opens with mode 0o666 before the umask is applied). -/
def createMode (umask : Nat) : Nat := 0o666 &&& (0o777 ^^^ umask)

/-- Apply one filesystem operation. -/
def applyFsOp (umask : Nat) (fs : FileState) : FsOp → FileState
  | FsOp.writeText c =>
    if fs.present then { fs with content := c } else ⟨true, createMode umask, c⟩
  | FsOp.chmod m => { fs with mode := m }

/-- All file states during a run of the operations, start state included. -/
def fsTrace (umask : Nat) (fs : FileState) (ops : List FsOp) : List FileState :=
  ops.scanl (applyFsOp umask) fs

/-- Does the mode grant read access to group or world. -/
def groupOrWorldReadable (mode : Nat) : Bool := mode &&& 0o044 != 0

/-! ## oauth.py: TokenManager.get_valid_token -/

/-- TokenManager state relevant to get_valid_token: the in-memory cache and
the token set held by the file (a well-formed store is modelled by its parsed
token set; parse failures are the subject of tokenManagerLoadFile). -/
structure TMState where
  cache : Option OAuthTokens
  file : Option OAuthTokens
deriving Repr, DecidableEq

/-- TokenManager.load on a well-formed store: the cache when present, else the
file content, which load also caches. -/
def tmLoad (s : TMState) : Option OAuthTokens × TMState :=
  match s.cache with
  | some t => (some t, s)
  | none =>
    match s.file with
    | some t => (some t, { s with cache := some t })
    | none => (none, s)

/-- TokenManager.save on the manager state. -/
def tmSave (_ : TMState) (t : OAuthTokens) : TMState := ⟨some t, some t⟩

/-- TokenManager.clear. -/
def tmClear (_ : TMState) : TMState := ⟨none, none⟩

/-- Result of TokenManager.get_valid_token: the returned access token, the
manager state afterwards, and whether a refresh request was issued upstream. -/
structure GetTokenResult where
  result : Option String
  state : TMState
  refreshCalled : Bool
deriving Repr, DecidableEq

/-- TokenManager.get_valid_token at wall-clock instant now; refreshResult is
the outcome of refresh_tokens when that call happens. -/
def get_valid_token (s : TMState) (now : Int)
    (refreshResult : Option OAuthTokens) : GetTokenResult :=
  match tmLoad s with
  | (none, s1) => ⟨none, s1, false⟩
  | (some tokens, s1) =>
    if tokens.is_expired now 60 then
      match refreshResult with
      | some new_tokens =>
        ⟨some new_tokens.access_token, tmSave s1 new_tokens, true⟩
      | none => ⟨none, tmClear s1, true⟩
    else
      ⟨some tokens.access_token, s1, false⟩

/-! ## Concurrent get_valid_token as an interleaving of atomic blocks -/

/-- Program counter of one coroutine executing get_valid_token; its atomic
blocks are separated by the await of refresh_tokens, the only suspension
point. -/
inductive TaskPC where
  | start
  | awaitingRefresh (tokens : OAuthTokens)
  | done (result : Option String)
deriving Repr, DecidableEq

/-- Shared process state: the token manager (a process-wide singleton in the
source) and how many refresh requests have reached the upstream endpoint. -/
structure ProcState where
  tm : TMState
  refreshCount : Nat
deriving Repr, DecidableEq

/-- Run one task for one atomic block; issuing the refresh HTTP request
increments the upstream call count and suspends. -/
def taskStep (now : Int) (refreshResult : Option OAuthTokens)
    (p : ProcState) (pc : TaskPC) : ProcState × TaskPC :=
  match pc with
  | TaskPC.start =>
    match tmLoad p.tm with
    | (none, tm1) => ({ p with tm := tm1 }, TaskPC.done none)
    | (some tokens, tm1) =>
      if tokens.is_expired now 60 then
        ({ tm := tm1, refreshCount := p.refreshCount + 1 },
         TaskPC.awaitingRefresh tokens)
      else
        ({ p with tm := tm1 }, TaskPC.done (some tokens.access_token))
  | TaskPC.awaitingRefresh _ =>
    match refreshResult with
    | some new_tokens =>
      ({ p with tm := tmSave p.tm new_tokens },
       TaskPC.done (some new_tokens.access_token))
    | none => ({ p with tm := tmClear p.tm }, TaskPC.done none)
  | TaskPC.done r => (p, TaskPC.done r)

/-- Interleave two concurrent get_valid_token calls under a schedule that
names which task runs its next atomic block (false picks task 0, true picks
task 1). -/
def runSchedule (now : Int) (refreshResult : Option OAuthTokens)
    (init : ProcState) (sched : List Bool) : ProcState × TaskPC × TaskPC :=
  sched.foldl
    (fun (acc : ProcState × TaskPC × TaskPC) (pick : Bool) =>
      if pick then
        let r := taskStep now refreshResult acc.1 acc.2.2
        (r.1, acc.2.1, r.2)
      else
        let r := taskStep now refreshResult acc.1 acc.2.1
        (r.1, r.2, acc.2.2))
    (init, TaskPC.start, TaskPC.start)

/-! ## Supporting lemmas: base64url alphabet and encoding -/

/-- A character is URL-safe: alphanumeric, dash or underscore. -/
def urlSafeChar (c : Char) : Bool := c.isAlphanum || c == '-' || c == '_'

theorem b64char_urlSafe_lt : ∀ n, n < 64 → urlSafeChar (b64char n) = true := by
  decide

theorem b64UrlChars_length : b64UrlChars.length = 64 := by rfl

theorem b64char_urlSafe (n : Nat) : urlSafeChar (b64char n) = true := by
  rcases Nat.lt_or_ge n 64 with h | h
  · exact b64char_urlSafe_lt n h
  · have : b64char n = 'A' := by
      unfold b64char
      exact List.getD_eq_default _ _ (le_trans (le_of_eq b64UrlChars_length) h)
    rw [this]
    rfl

theorem b64UrlNopadChars_length (bs : List Nat) :
    (b64UrlNopadChars bs).length = (bs.length * 4 + 2) / 3 := by
  induction bs using b64UrlNopadChars.induct with
  | case1 => rfl
  | case2 a => simp [b64UrlNopadChars]
  | case3 a b => simp [b64UrlNopadChars]
  | case4 a b c rest ih =>
    simp only [b64UrlNopadChars, List.length_cons, ih, List.length_cons]
    omega

theorem b64UrlNopadChars_mem (bs : List Nat) (ch : Char)
    (h : ch ∈ b64UrlNopadChars bs) : ∃ n, ch = b64char n := by
  induction bs using b64UrlNopadChars.induct with
  | case1 => cases h
  | case2 a =>
    simp only [b64UrlNopadChars, List.mem_cons, List.not_mem_nil, or_false] at h
    rcases h with rfl | rfl
    · exact ⟨_, rfl⟩
    · exact ⟨_, rfl⟩
  | case3 a b =>
    simp only [b64UrlNopadChars, List.mem_cons, List.not_mem_nil, or_false] at h
    rcases h with rfl | rfl | rfl
    · exact ⟨_, rfl⟩
    · exact ⟨_, rfl⟩
    · exact ⟨_, rfl⟩
  | case4 a b c rest ih =>
    simp only [b64UrlNopadChars, List.mem_cons] at h
    rcases h with rfl | rfl | rfl | rfl | h
    · exact ⟨_, rfl⟩
    · exact ⟨_, rfl⟩
    · exact ⟨_, rfl⟩
    · exact ⟨_, rfl⟩
    · exact ih h

theorem b64UrlNopad_urlSafe (bs : List Nat) :
    ∀ c ∈ (b64UrlNopad bs).data, urlSafeChar c = true := by
  intro c hc
  obtain ⟨n, rfl⟩ := b64UrlNopadChars_mem bs c hc
  exact b64char_urlSafe n

/-- Claim C8: for every 32-byte random draw, the PKCE pair satisfies
challenge = base64url-nopad of the SHA-256 of the UTF-8 bytes of the
verifier, the verifier has length at least 43, and both the verifier and
the challenge use only URL-safe characters. -/
theorem pkce_pair_spec (randomBytes : List Nat)
    (hlen : randomBytes.length = 32) (_hbytes : ∀ b ∈ randomBytes, b < 256) :
    (generate_pkce randomBytes).challenge =
      b64UrlNopad (sha256 (strEncode (generate_pkce randomBytes).verifier)) ∧
    43 ≤ (generate_pkce randomBytes).verifier.length ∧
    (∀ c ∈ (generate_pkce randomBytes).verifier.data, urlSafeChar c = true) ∧
    (∀ c ∈ (generate_pkce randomBytes).challenge.data, urlSafeChar c = true) := by
  refine ⟨rfl, ?_, ?_, ?_⟩
  · show 43 ≤ (b64UrlNopadChars randomBytes).length
    rw [b64UrlNopadChars_length, hlen]
  · exact b64UrlNopad_urlSafe randomBytes
  · exact b64UrlNopad_urlSafe _

/-- Witness for pkce_pair_spec at the all-zero 32-byte draw. -/
theorem pkce_pair_spec_witness :
    (List.replicate 32 (0:Nat)).length = 32 ∧
    (∀ b ∈ List.replicate 32 (0:Nat), b < 256) ∧
    ((generate_pkce (List.replicate 32 0)).challenge =
       b64UrlNopad (sha256 (strEncode (generate_pkce (List.replicate 32 0)).verifier)) ∧
     43 ≤ (generate_pkce (List.replicate 32 0)).verifier.length ∧
     (∀ c ∈ (generate_pkce (List.replicate 32 0)).verifier.data, urlSafeChar c = true) ∧
     (∀ c ∈ (generate_pkce (List.replicate 32 0)).challenge.data, urlSafeChar c = true)) :=
  ⟨by decide, by decide,
   pkce_pair_spec (List.replicate 32 0) (by decide) (by decide)⟩

/-! ## Supporting lemmas: Python str.split -/

theorem pySplitChar_no_sep (sep : Char) :
    ∀ l : List Char, (∀ c ∈ l, c ≠ sep) → pySplitChar sep l = [l] := by
  intro l
  induction l with
  | nil => intro _; rfl
  | cons c cs ih =>
    intro h
    have hc : c ≠ sep := h c (List.mem_cons_self c cs)
    have := ih (fun d hd => h d (List.mem_cons_of_mem c hd))
    simp only [pySplitChar, this, if_neg hc]

theorem pySplitChar_append_sep (sep : Char) :
    ∀ (a rest : List Char), (∀ c ∈ a, c ≠ sep) →
      pySplitChar sep (a ++ sep :: rest) = a :: pySplitChar sep rest := by
  intro a
  induction a with
  | nil =>
    intro rest _
    simp [pySplitChar]
  | cons c cs ih =>
    intro rest h
    have hc : c ≠ sep := h c (List.mem_cons_self c cs)
    have hrec := ih rest (fun d hd => h d (List.mem_cons_of_mem c hd))
    simp only [List.cons_append, pySplitChar, List.append_eq, hrec, if_neg hc]

/-- Claim C7 counterexample: for the external code string a#b#c, which
contains a hash sign, the state sent upstream is b, not the full suffix
b#c after the first hash sign. -/
theorem exchange_code_split_counterexample :
    exchange_code_fields "a#b#c" = ("a", "b") ∧
    (("a", "b") : String × String) ≠ ("a", "b#c") := by
  exact ⟨rfl, by decide⟩

/-- Claim C7 (amended): exchange_code sends the part of the code string
before the first hash sign as code; the state sent is the segment between
the first and the second hash sign (the whole remainder when there is no
second hash sign), and the empty string when the code contains no hash
sign at all. -/
theorem exchange_code_split_spec (a b rest : String)
    (ha : '#' ∉ a.data) (hb : '#' ∉ b.data) :
    exchange_code_fields a = (a, "") ∧
    exchange_code_fields (a ++ "#" ++ b) = (a, b) ∧
    exchange_code_fields (a ++ "#" ++ b ++ "#" ++ rest) = (a, b) := by
  have ha' : ∀ c ∈ a.data, c ≠ '#' := fun c hc he => ha (he ▸ hc)
  have hb' : ∀ c ∈ b.data, c ≠ '#' := fun c hc he => hb (he ▸ hc)
  refine ⟨?_, ?_, ?_⟩
  · show exchange_code_fields a = (a, "")
    unfold exchange_code_fields pySplit
    rw [pySplitChar_no_sep '#' a.data ha']
    rfl
  · unfold exchange_code_fields pySplit
    have hdata : (a ++ "#" ++ b).data = a.data ++ '#' :: b.data := by
      simp [String.data_append]
    rw [hdata, pySplitChar_append_sep '#' a.data b.data ha',
        pySplitChar_no_sep '#' b.data hb']
    rfl
  · unfold exchange_code_fields pySplit
    have hdata : (a ++ "#" ++ b ++ "#" ++ rest).data =
        a.data ++ '#' :: (b.data ++ '#' :: rest.data) := by
      simp [String.data_append]
    rw [hdata, pySplitChar_append_sep '#' a.data _ ha',
        pySplitChar_append_sep '#' b.data rest.data hb']
    simp

/-- Witness for exchange_code_split_spec at a = x, b = y, rest = z#w. -/
theorem exchange_code_split_spec_witness :
    '#' ∉ "x".data ∧ '#' ∉ "y".data ∧
    (exchange_code_fields "x" = ("x", "") ∧
     exchange_code_fields ("x" ++ "#" ++ "y") = ("x", "y") ∧
     exchange_code_fields ("x" ++ "#" ++ "y" ++ "#" ++ "z#w") = ("x", "y")) :=
  ⟨by decide, by decide,
   exchange_code_split_spec "x" "y" "z#w" (by decide) (by decide)⟩

/-! ## Supporting lemmas: token expiry -/

theorem is_expired_true_iff (t : OAuthTokens) (now buffer : Int) :
    t.is_expired now buffer = true ↔ now ≥ t.expires_at - buffer := by
  simp [OAuthTokens.is_expired]

theorem is_expired_false_iff (t : OAuthTokens) (now buffer : Int) :
    t.is_expired now buffer = false ↔ ¬ now ≥ t.expires_at - buffer := by
  simp [OAuthTokens.is_expired]

/-- Claim C4: get_valid_token refreshes exactly when the loaded token is
within the 60-second expiry buffer (now at or past expires_at minus 60);
with expires_at 10 seconds ahead it refreshes and, on success, persists the
refreshed set and returns its access token; with expires_at 600 seconds
ahead it returns the cached access token without refreshing or changing
state; when a refresh is due and fails it clears the stored tokens and
returns none. -/
theorem get_valid_token_spec (s : TMState) (now : Int)
    (refreshResult : Option OAuthTokens) (t : OAuthTokens)
    (hload : (tmLoad s).1 = some t) :
    ((get_valid_token s now refreshResult).refreshCalled = true ↔
      now ≥ t.expires_at - 60) ∧
    (t.expires_at = now + 10 →
      (get_valid_token s now refreshResult).refreshCalled = true ∧
      ∀ nt, refreshResult = some nt →
        get_valid_token s now refreshResult =
          ⟨some nt.access_token, ⟨some nt, some nt⟩, true⟩) ∧
    (t.expires_at = now + 600 →
      get_valid_token s now refreshResult =
        ⟨some t.access_token, (tmLoad s).2, false⟩) ∧
    (now ≥ t.expires_at - 60 → refreshResult = none →
      get_valid_token s now refreshResult = ⟨none, ⟨none, none⟩, true⟩) := by
  rcases hTL : tmLoad s with ⟨fst, s1⟩
  rw [hTL] at hload
  simp only at hload
  subst hload
  have hred : get_valid_token s now refreshResult =
      (if t.is_expired now 60 then
        match refreshResult with
        | some nt => ⟨some nt.access_token, tmSave s1 nt, true⟩
        | none => ⟨none, tmClear s1, true⟩
      else ⟨some t.access_token, s1, false⟩) := by
    unfold get_valid_token
    rw [hTL]
  refine ⟨?_, ?_, ?_, ?_⟩
  · rw [hred]
    by_cases hexp : now ≥ t.expires_at - 60
    · rw [(is_expired_true_iff t now 60).mpr hexp]
      simp only [if_true]
      cases refreshResult <;> simpa using hexp
    · rw [(is_expired_false_iff t now 60).mpr hexp]
      simp only [Bool.false_eq_true, if_false]
      simpa using hexp
  · intro h10
    have hexp : now ≥ t.expires_at - 60 := by omega
    rw [hred, (is_expired_true_iff t now 60).mpr hexp]
    simp only [if_true]
    constructor
    · cases refreshResult <;> rfl
    · intro nt hnt
      subst hnt
      rfl
  · intro h600
    have hexp : ¬ now ≥ t.expires_at - 60 := by omega
    rw [hred, (is_expired_false_iff t now 60).mpr hexp]
    simp only [Bool.false_eq_true, if_false, hTL]
  · intro hexp hnone
    subst hnone
    rw [hred, (is_expired_true_iff t now 60).mpr hexp]
    rfl

/-- Witness for get_valid_token_spec: a cached token expiring at 1010 seen
at now = 1000 (10 seconds ahead), with a successful refresh outcome. -/
theorem get_valid_token_spec_witness :
    (tmLoad ⟨some ⟨"acc", "ref", 1010⟩, some ⟨"acc", "ref", 1010⟩⟩).1 =
      some ⟨"acc", "ref", 1010⟩ ∧
    (((get_valid_token ⟨some ⟨"acc", "ref", 1010⟩, some ⟨"acc", "ref", 1010⟩⟩
        1000 (some ⟨"acc2", "ref2", 5000⟩)).refreshCalled = true ↔
        (1000 : Int) ≥ (1010 : Int) - 60) ∧
     ((1010 : Int) = 1000 + 10 →
       (get_valid_token ⟨some ⟨"acc", "ref", 1010⟩, some ⟨"acc", "ref", 1010⟩⟩
         1000 (some ⟨"acc2", "ref2", 5000⟩)).refreshCalled = true ∧
       ∀ nt, (some ⟨"acc2", "ref2", 5000⟩ : Option OAuthTokens) = some nt →
         get_valid_token ⟨some ⟨"acc", "ref", 1010⟩, some ⟨"acc", "ref", 1010⟩⟩
           1000 (some ⟨"acc2", "ref2", 5000⟩) =
           ⟨some nt.access_token, ⟨some nt, some nt⟩, true⟩) ∧
     ((1010 : Int) = 1000 + 600 →
       get_valid_token ⟨some ⟨"acc", "ref", 1010⟩, some ⟨"acc", "ref", 1010⟩⟩
         1000 (some ⟨"acc2", "ref2", 5000⟩) =
         ⟨some "acc",
          (tmLoad ⟨some ⟨"acc", "ref", 1010⟩, some ⟨"acc", "ref", 1010⟩⟩).2,
          false⟩) ∧
     ((1000 : Int) ≥ (1010 : Int) - 60 →
       (some ⟨"acc2", "ref2", 5000⟩ : Option OAuthTokens) = none →
       get_valid_token ⟨some ⟨"acc", "ref", 1010⟩, some ⟨"acc", "ref", 1010⟩⟩
         1000 (some ⟨"acc2", "ref2", 5000⟩) = ⟨none, ⟨none, none⟩, true⟩)) :=
  ⟨by rfl,
   get_valid_token_spec ⟨some ⟨"acc", "ref", 1010⟩, some ⟨"acc", "ref", 1010⟩⟩
     1000 (some ⟨"acc2", "ref2", 5000⟩) ⟨"acc", "ref", 1010⟩ (by rfl)⟩

/-- Claim C3 (code bug evaluation): during TokenManager.save to a fresh
token file under the default umask 0o022, the write_text lands the
credential bytes with creation mode 0o644 — group- and world-readable —
and only the subsequent chmod restricts the mode to 0o600.  The claim that
permissions are owner-only before any credential bytes reach disk is
violated at the intermediate trace state. -/
theorem save_exposes_credentials (t : OAuthTokens) :
    fsTrace 0o022 ⟨false, 0, ""⟩ (saveOps t) =
      [⟨false, 0, ""⟩,
       ⟨true, 0o644, tokensFileContent t⟩,
       ⟨true, 0o600, tokensFileContent t⟩] ∧
    groupOrWorldReadable 0o644 = true ∧
    groupOrWorldReadable 0o600 = false := by
  exact ⟨rfl, by decide, by decide⟩

/-- Claim C6 counterexample: the token file content [] is valid JSON that
does not parse to a token set (it is missing every required field), yet
load raises an uncaught TypeError instead of returning none. -/
theorem load_corrupt_counterexample :
    parseJson "[]" = some (Json.arr []) ∧
    tokenManagerLoadFile (some "[]") = Except.error PyErr.typeError := by
  exact ⟨rfl, rfl⟩

/-- Claim C6 (amended): with an empty cache, a file whose content is not
valid JSON loads as none, and a file holding a JSON object missing any of
the required fields loads as none; but a file holding a valid JSON value
whose top level is not an object makes load raise an uncaught TypeError. -/
theorem load_corrupt_spec (content : String) :
    (parseJson content = none →
      tokenManagerLoadFile (some content) = Except.ok none) ∧
    (∀ fields, parseJson content = some (Json.obj fields) →
      (objGet? fields "access_token" = none ∨
       objGet? fields "refresh_token" = none ∨
       objGet? fields "expires_at" = none) →
      tokenManagerLoadFile (some content) = Except.ok none) ∧
    (∀ j, parseJson content = some j → (∀ fields, j ≠ Json.obj fields) →
      tokenManagerLoadFile (some content) = Except.error PyErr.typeError) := by
  have hsome : tokenManagerLoadFile (some content) =
      (match parseJson content with
       | none => Except.ok none
       | some data =>
         match from_dict data with
         | Except.ok t => Except.ok (some t)
         | Except.error PyErr.keyError => Except.ok none
         | Except.error e => Except.error e) := rfl
  refine ⟨?_, ?_, ?_⟩
  · intro h
    rw [hsome, h]
  · intro fields hparse hmiss
    rw [hsome, hparse]
    dsimp only
    have : from_dict (Json.obj fields) = Except.error PyErr.keyError := by
      rcases hmiss with h | h | h
      · unfold from_dict pySubscript
        dsimp only
        rw [h]
        rfl
      · unfold from_dict pySubscript
        dsimp only
        cases ha : objGet? fields "access_token"
        · rfl
        · rw [h]
          rfl
      · unfold from_dict pySubscript
        dsimp only
        cases ha : objGet? fields "access_token"
        · rfl
        · cases hr : objGet? fields "refresh_token"
          · rfl
          · rw [h]
            rfl
    rw [this]
  · intro j hparse hnotobj
    rw [hsome, hparse]
    dsimp only
    have : from_dict j = Except.error PyErr.typeError := by
      cases j with
      | obj fields => exact absurd rfl (hnotobj fields)
      | null => rfl
      | bool b => rfl
      | num n => rfl
      | str s => rfl
      | arr items => rfl
    rw [this]

/-- Witness for load_corrupt_spec at the empty-object file content. -/
theorem load_corrupt_spec_witness :
    parseJson "\x7b\x7d" = some (Json.obj []) ∧
    objGet? [] "access_token" = none ∧
    tokenManagerLoadFile (some "\x7b\x7d") = Except.ok none :=
  ⟨by rfl, by rfl,
   (load_corrupt_spec "\x7b\x7d").2.1 [] (by rfl) (Or.inl (by rfl))⟩

/-! ## Supporting lemmas: tool translation -/

theorem foldl_collect (p : OpenAITool → Bool) (f : OpenAITool → AnthTool) :
    ∀ (ts : List OpenAITool) (acc : List AnthTool),
      ts.foldl (fun acc tool => if p tool then acc ++ [f tool] else acc) acc =
        acc ++ (ts.filter p).map f := by
  intro ts
  induction ts with
  | nil => intro acc; simp
  | cons t ts' ih =>
    intro acc
    by_cases h : p t
    · simp [List.foldl_cons, h, ih, List.filter_cons]
    · simp [List.foldl_cons, h, ih, List.filter_cons]

/-- Claim C2 counterexample: a tools list whose only entry has type
web_search is silently dropped; tool translation returns the same result
as when no tools are supplied at all, instead of reporting any error. -/
theorem tools_translation_counterexample :
    openai_to_anthropic_tools (some [⟨some "web_search", none⟩]) = none ∧
    openai_to_anthropic_tools none = none := ⟨rfl, rfl⟩

/-- Claim C2 (amended): tool translation keeps exactly the entries whose
type equals function, converts each via the name, description and
parameters field reads, silently skips every other entry, and returns none
when no function-typed entry remains; it never signals an error. -/
theorem tools_translation_spec (ts : List OpenAITool) :
    openai_to_anthropic_tools (some ts) =
      (if ((ts.filter (fun tool => tool.ttype == some "function")).map
            anthToolOf).isEmpty
       then none
       else some ((ts.filter (fun tool => tool.ttype == some "function")).map
            anthToolOf)) := by
  cases ts with
  | nil => rfl
  | cons t ts' =>
    unfold openai_to_anthropic_tools
    dsimp only
    rw [foldl_collect (fun tool => tool.ttype == some "function") anthToolOf
        (t :: ts') []]
    simp [List.isEmpty_cons]

/-! ## Supporting definitions and lemmas: the system-message lift -/

/-- Modelled from the spec: contents joined in order, separated by a blank
line. -/
def joinBlankLine : List String → String
  | [] => ""
  | [c] => c
  | c :: rest => c ++ "\n\n" ++ joinBlankLine rest

/-- The contents of the system messages of a list, in order, each read with
the same default as the loop. -/
def systemContents (msgs : List OpenAIMessage) : List String :=
  msgs.filterMap
    (fun m => if m.role.getD "" = "system" then some (m.content.getD "") else none)

/-- Modelled from the spec: the per-message conversion for the non-system
roles (user and assistant pass through, tool becomes a tool_result user
message, anything else is dropped). -/
def convMsgSpec (m : OpenAIMessage) : Option AnthMessage :=
  let role := m.role.getD ""
  let content := m.content.getD ""
  if role = "user" then some ⟨"user", AnthContent.str content⟩
  else if role = "assistant" then some ⟨"assistant", AnthContent.str content⟩
  else if role = "tool" then
    some ⟨"user", AnthContent.blocks [⟨m.tool_call_id.getD "", content⟩]⟩
  else none

/-- How a pending system prompt combines with the remaining system message
contents. -/
def joinSys (sp : Option String) (l : List String) : Option String :=
  match l with
  | [] => sp
  | c :: cs =>
    match sp with
    | none => some (joinBlankLine (c :: cs))
    | some s => some (s ++ "\n\n" ++ joinBlankLine (c :: cs))

theorem strAppendBlank_ne (s c : String) : s ++ "\n\n" ++ c ≠ "" := by
  intro h
  have := congrArg String.data h
  simp [String.data_append] at this

theorem joinSys_push (c : String) (l : List String) :
    joinSys (some c) l = some (joinBlankLine (c :: l)) := by
  cases l with
  | nil => rfl
  | cons d ds => rfl

theorem joinSys_append (s c : String) (l : List String) :
    joinSys (some (s ++ "\n\n" ++ c)) l = joinSys (some s) (c :: l) := by
  cases l with
  | nil => rfl
  | cons d ds =>
    show some (s ++ "\n\n" ++ c ++ "\n\n" ++ joinBlankLine (d :: ds)) =
      some (s ++ "\n\n" ++ (c ++ "\n\n" ++ joinBlankLine (d :: ds)))
    simp [String.append_assoc]

theorem messages_fold_inv :
    ∀ (msgs : List OpenAIMessage) (sp : Option String) (ams : List AnthMessage),
      (∀ m ∈ msgs, m.role.getD "" = "system" → m.content.getD "" ≠ "") →
      (sp = none ∨ ∃ s, sp = some s ∧ s ≠ "") →
      msgs.foldl msgStep (sp, ams) =
        (joinSys sp (systemContents msgs), ams ++ msgs.filterMap convMsgSpec) := by
  intro msgs
  induction msgs with
  | nil =>
    intro sp ams _ _
    simp [systemContents, joinSys]
  | cons m ms ih =>
    intro sp ams h hinv
    have hms : ∀ x ∈ ms, x.role.getD "" = "system" → x.content.getD "" ≠ "" :=
      fun x hx => h x (List.mem_cons_of_mem m hx)
    rw [List.foldl_cons]
    by_cases hsys : m.role.getD "" = "system"
    · have hc : m.content.getD "" ≠ "" := h m (List.mem_cons_self m ms) hsys
      have hstep : msgStep (sp, ams) m =
          (match sp with
           | none => (some (m.content.getD ""), ams)
           | some s =>
             if s ≠ "" then (some (s ++ "\n\n" ++ m.content.getD ""), ams)
             else (some (m.content.getD ""), ams)) := by
        rcases hinv with rfl | ⟨s, rfl, hs⟩
        · simp [msgStep, hsys, strTruthy]
        · simp only [msgStep, hsys, if_pos]
          by_cases hse : s = ""
          · subst hse
            simp [strTruthy]
          · simp [strTruthy, hse]
      have hSC : systemContents (m :: ms) =
          m.content.getD "" :: systemContents ms := by
        simp [systemContents, List.filterMap_cons, hsys]
      have hFM : (m :: ms).filterMap convMsgSpec = ms.filterMap convMsgSpec := by
        have : convMsgSpec m = none := by
          simp only [convMsgSpec]
          rw [hsys]
          rfl
        simp [List.filterMap_cons, this]
      rcases hinv with rfl | ⟨s, rfl, hs⟩
      · rw [hstep]
        rw [ih (some (m.content.getD "")) ams hms (Or.inr ⟨_, rfl, hc⟩)]
        rw [hSC, hFM, joinSys_push]
        rfl
      · rw [hstep]
        simp only [if_pos hs]
        rw [ih (some (s ++ "\n\n" ++ m.content.getD "")) ams hms
            (Or.inr ⟨_, rfl, strAppendBlank_ne s _⟩)]
        rw [hSC, hFM, joinSys_append]
    · have hSC : systemContents (m :: ms) = systemContents ms := by
        simp [systemContents, List.filterMap_cons, hsys]
      by_cases huser : m.role.getD "" = "user"
      · have hstep : msgStep (sp, ams) m =
            (sp, ams ++ [⟨"user", AnthContent.str (m.content.getD "")⟩]) := by
          simp [msgStep, hsys, huser]
        have hconv : convMsgSpec m =
            some ⟨"user", AnthContent.str (m.content.getD "")⟩ := by
          simp [convMsgSpec, hsys, huser]
        rw [hstep, ih sp _ hms hinv, hSC]
        simp [List.filterMap_cons, hconv]
      · by_cases hasst : m.role.getD "" = "assistant"
        · have hstep : msgStep (sp, ams) m =
              (sp, ams ++ [⟨"assistant", AnthContent.str (m.content.getD "")⟩]) := by
            simp [msgStep, hsys, huser, hasst]
          have hconv : convMsgSpec m =
              some ⟨"assistant", AnthContent.str (m.content.getD "")⟩ := by
            simp [convMsgSpec, hsys, huser, hasst]
          rw [hstep, ih sp _ hms hinv, hSC]
          simp [List.filterMap_cons, hconv]
        · by_cases htool : m.role.getD "" = "tool"
          · have hstep : msgStep (sp, ams) m =
                (sp, ams ++ [⟨"user", AnthContent.blocks
                  [⟨m.tool_call_id.getD "", m.content.getD ""⟩]⟩]) := by
              simp [msgStep, hsys, huser, hasst, htool]
            have hconv : convMsgSpec m =
                some ⟨"user", AnthContent.blocks
                  [⟨m.tool_call_id.getD "", m.content.getD ""⟩]⟩ := by
              simp [convMsgSpec, hsys, huser, hasst, htool]
            rw [hstep, ih sp _ hms hinv, hSC]
            simp [List.filterMap_cons, hconv]
          · have hstep : msgStep (sp, ams) m = (sp, ams) := by
              simp [msgStep, hsys, huser, hasst, htool]
            have hconv : convMsgSpec m = none := by
              simp [convMsgSpec, hsys, huser, hasst, htool]
            rw [hstep, ih sp _ hms hinv, hSC]
            simp [List.filterMap_cons, hconv]

/-- Claim C5 counterexample: with message list [system with empty content,
system with content B], the lifted system field is B, not the in-order
blank-line concatenation of the two contents. -/
theorem system_lift_counterexample :
    (openai_to_anthropic_messages
      [⟨some "system", some "", none⟩, ⟨some "system", some "B", none⟩]).1 =
      some "B" ∧
    some "B" ≠ some ("" ++ "\n\n" ++ "B") := ⟨rfl, by decide⟩

/-- Claim C5 (amended): for every message list in which every system message
has non-empty content, translation lifts the system messages out into a
single system field equal to their contents joined in order with a blank
line (absent when there is no system message), while user and assistant
messages pass through with role and string content unchanged, tool messages
become tool_result user messages, and other roles are dropped. -/
theorem system_lift_spec (msgs : List OpenAIMessage)
    (hsys : ∀ m ∈ msgs, m.role.getD "" = "system" → m.content.getD "" ≠ "") :
    (openai_to_anthropic_messages msgs).1 =
      (if systemContents msgs = [] then none
       else some (joinBlankLine (systemContents msgs))) ∧
    (openai_to_anthropic_messages msgs).2 = msgs.filterMap convMsgSpec := by
  have hrun := messages_fold_inv msgs none [] hsys (Or.inl rfl)
  unfold openai_to_anthropic_messages
  rw [hrun]
  constructor
  · cases hSC : systemContents msgs with
    | nil => rfl
    | cons c cs => rfl
  · simp

/-- Witness for system_lift_spec at the concrete list [system A, user hi,
system B], also checking the concrete outputs A blank-line B and the lone
user message. -/
theorem system_lift_spec_witness :
    (∀ m ∈ [(⟨some "system", some "A", none⟩ : OpenAIMessage),
            ⟨some "user", some "hi", none⟩, ⟨some "system", some "B", none⟩],
        m.role.getD "" = "system" → m.content.getD "" ≠ "") ∧
    ((openai_to_anthropic_messages
        [⟨some "system", some "A", none⟩, ⟨some "user", some "hi", none⟩,
         ⟨some "system", some "B", none⟩]).1 =
      (if systemContents
            [⟨some "system", some "A", none⟩, ⟨some "user", some "hi", none⟩,
             ⟨some "system", some "B", none⟩] = [] then none
       else some (joinBlankLine (systemContents
            [⟨some "system", some "A", none⟩, ⟨some "user", some "hi", none⟩,
             ⟨some "system", some "B", none⟩]))) ∧
     (openai_to_anthropic_messages
        [⟨some "system", some "A", none⟩, ⟨some "user", some "hi", none⟩,
         ⟨some "system", some "B", none⟩]).2 =
       [⟨some "system", some "A", none⟩, ⟨some "user", some "hi", none⟩,
        ⟨some "system", some "B", none⟩].filterMap convMsgSpec) :=
  ⟨by decide,
   system_lift_spec
     [⟨some "system", some "A", none⟩, ⟨some "user", some "hi", none⟩,
      ⟨some "system", some "B", none⟩] (by decide)⟩

example :
    (openai_to_anthropic_messages
      [⟨some "system", some "A", none⟩, ⟨some "user", some "hi", none⟩,
       ⟨some "system", some "B", none⟩]) =
    (some "A\n\nB", [⟨"user", AnthContent.str "hi"⟩]) := by rfl

/-- Claim C1 counterexample: when the upstream returns a non-success status
before streaming begins, the generator emits the single error chunk and
returns; the emitted byte sequence does not end with the terminal sentinel
line. -/
theorem streaming_sentinel_counterexample :
    generate false "upstream failure" 0 "m" [] =
      Except.ok ["data: \x7b\"error\": \"upstream failure\"\x7d\n\n"] ∧
    ["data: \x7b\"error\": \"upstream failure\"\x7d\n\n"].getLast? ≠
      some doneSentinel := ⟨rfl, by decide⟩

/-- Claim C1 (amended): on a success upstream status, whenever the line loop
completes without an uncaught exception the emitted sequence is non-empty
and ends with the sentinel line followed by a blank line; on a non-success
status the generator emits exactly one data chunk whose JSON carries an
error field holding the upstream body, and nothing else — the sentinel is
not emitted. -/
theorem streaming_sentinel_spec (errorBody : String) (created : Int)
    (model : String) (lines : List String) :
    (∀ out, generate true errorBody created model lines = Except.ok out →
      out ≠ [] ∧ out.getLast? = some doneSentinel) ∧
    generate false errorBody created model lines =
      Except.ok ["data: " ++ dumps (Json.obj [("error", Json.str errorBody)]) ++
        "\n\n"] := by
  constructor
  · intro out hout
    have hgen : generate true errorBody created model lines =
        (match lines.foldlM (processLine created model) ⟨none, []⟩ with
         | Except.error e => Except.error e
         | Except.ok st => Except.ok (st.emitted ++ [doneSentinel])) := rfl
    rw [hgen] at hout
    cases hf : lines.foldlM (processLine created model) ⟨none, []⟩ with
    | error e =>
      rw [hf] at hout
      exact Except.noConfusion hout
    | ok st =>
      rw [hf] at hout
      have heq := Except.ok.inj hout
      rw [← heq]
      exact ⟨by simp, List.getLast?_concat _⟩
  · rfl

/-- Witness for streaming_sentinel_spec on a two-line upstream stream ending
in message_stop. -/
theorem streaming_sentinel_spec_witness :
    generate true "" 0 "m" ["event: message_stop", "data: \x7b\x7d"] =
      Except.ok
        ["data: \x7b\"id\": \"chatcmpl-anthropic\", \"object\": \"chat.completion.chunk\", \"created\": 0, \"model\": \"m\", \"choices\": [\x7b\"index\": 0, \"delta\": \x7b\x7d, \"finish_reason\": \"stop\"\x7d]\x7d\n\n",
         doneSentinel] ∧
    (["data: \x7b\"id\": \"chatcmpl-anthropic\", \"object\": \"chat.completion.chunk\", \"created\": 0, \"model\": \"m\", \"choices\": [\x7b\"index\": 0, \"delta\": \x7b\x7d, \"finish_reason\": \"stop\"\x7d]\x7d\n\n",
      doneSentinel] ≠ ([] : List String) ∧
     ["data: \x7b\"id\": \"chatcmpl-anthropic\", \"object\": \"chat.completion.chunk\", \"created\": 0, \"model\": \"m\", \"choices\": [\x7b\"index\": 0, \"delta\": \x7b\x7d, \"finish_reason\": \"stop\"\x7d]\x7d\n\n",
      doneSentinel].getLast? = some doneSentinel) :=
  ⟨by rfl,
   (streaming_sentinel_spec "" 0 "m" ["event: message_stop", "data: \x7b\x7d"]).1
     _ (by rfl)⟩

/-! ## Supporting lemmas: the event_type local of the stream loop -/

theorem processLine_skip (created : Int) (model : String) (st : GenState)
    (l : String)
    (h : l = "" ∨ (pyStartsWith l "event: " = false ∧
      pyStartsWith l "data: " = false)) :
    processLine created model st l = Except.ok st := by
  rcases h with rfl | ⟨h1, h2⟩
  · rfl
  · by_cases hl : l = ""
    · subst hl
      rfl
    · unfold processLine
      rw [if_neg hl, h1, h2]
      rfl

theorem foldlM_skipPrefix (created : Int) (model : String) :
    ∀ (pre tl : List String) (st : GenState),
      (∀ l ∈ pre, l = "" ∨ (pyStartsWith l "event: " = false ∧
        pyStartsWith l "data: " = false)) →
      (pre ++ tl).foldlM (processLine created model) st =
        tl.foldlM (processLine created model) st := by
  intro pre
  induction pre with
  | nil => intro tl st _; rfl
  | cons l ls ih =>
    intro tl st h
    rw [List.cons_append, List.foldlM_cons,
        processLine_skip created model st l (h l (List.mem_cons_self l ls))]
    exact ih tl st (fun x hx => h x (List.mem_cons_of_mem l hx))

theorem processLine_unbound (created : Int) (model : String) (d : String)
    (j : Json) (hd : pyStartsWith d "data: " = true)
    (hj : parseJson (pyDrop d 6) = some j) (st : GenState)
    (hst : st.event_type = none) :
    processLine created model st d = Except.error PyErr.unboundLocalError := by
  have hne : d ≠ "" := by
    intro h
    rw [h] at hd
    exact absurd hd (by decide)
  have hev : pyStartsWith d "event: " = false := by
    have hd2 : charsStartWith d.data ("data: ").data = true := hd
    show charsStartWith d.data ("event: ").data = false
    rcases hdd : d.data with _ | ⟨c, cs⟩
    · rw [hdd] at hd2
      exact absurd hd2 (by decide)
    · rw [hdd] at hd2
      have hlist : ("data: ").data = ['d', 'a', 't', 'a', ':', ' '] := rfl
      have hlist2 : ("event: ").data = ['e', 'v', 'e', 'n', 't', ':', ' '] := rfl
      rw [hlist] at hd2
      rw [hlist2]
      simp only [charsStartWith, Bool.and_eq_true, beq_iff_eq] at hd2
      obtain ⟨hc, _⟩ := hd2
      subst hc
      simp [charsStartWith]
  unfold processLine
  rw [if_neg hne, hev, hd, hj, hst]
  rfl

/-- Claim C10 counterexample: an upstream stream whose first non-empty data
line precedes every event line but carries invalid JSON is skipped by the
caught json.JSONDecodeError, and the stream continues to the sentinel — no
error is raised on that line. -/
theorem unassigned_event_type_counterexample :
    generate true "" 0 "m" ["data: not-json"] = Except.ok [doneSentinel] ∧
    (Except.ok [doneSentinel] : Except PyErr (List String)) ≠
      Except.error PyErr.unboundLocalError :=
  ⟨rfl, fun h => Except.noConfusion h⟩

/-- Claim C10 (amended): on a success upstream stream in which a data line
whose payload parses as JSON arrives while no event line has yet been seen
(every earlier line being empty or neither an event nor a data line), the
loop references the never-assigned event_type local, raises, and the whole
stream aborts with that error. -/
theorem unassigned_event_type_spec (created : Int) (model errorBody : String)
    (pre : List String) (d : String) (rest : List String) (j : Json)
    (hpre : ∀ l ∈ pre, l = "" ∨ (pyStartsWith l "event: " = false ∧
      pyStartsWith l "data: " = false))
    (hd : pyStartsWith d "data: " = true)
    (hj : parseJson (pyDrop d 6) = some j) :
    generate true errorBody created model (pre ++ d :: rest) =
      Except.error PyErr.unboundLocalError := by
  have hgen : generate true errorBody created model (pre ++ d :: rest) =
      (match (pre ++ d :: rest).foldlM (processLine created model) ⟨none, []⟩ with
       | Except.error e => Except.error e
       | Except.ok st => Except.ok (st.emitted ++ [doneSentinel])) := rfl
  rw [hgen, foldlM_skipPrefix created model pre (d :: rest) ⟨none, []⟩ hpre,
      List.foldlM_cons,
      processLine_unbound created model d j hd hj ⟨none, []⟩ rfl]
  rfl

/-- Witness for unassigned_event_type_spec: the stream whose only line is a
data line holding the empty JSON object. -/
theorem unassigned_event_type_spec_witness :
    pyStartsWith "data: \x7b\x7d" "data: " = true ∧
    parseJson (pyDrop "data: \x7b\x7d" 6) = some (Json.obj []) ∧
    generate true "" 0 "m" ([] ++ "data: \x7b\x7d" :: []) =
      Except.error PyErr.unboundLocalError :=
  ⟨by decide, by rfl,
   unassigned_event_type_spec 0 "m" "" [] "data: \x7b\x7d" [] (Json.obj [])
     (by simp) (by decide) (by rfl)⟩

/-- Claim C9 (code bug evaluation): TokenManager holds no lock, so two
concurrent get_valid_token calls that both pass the expiry check before
either refresh completes issue two refresh requests to the upstream token
endpoint — not exactly one as the single-flight contract demands — even
though both callers then observe the refreshed token. -/
theorem concurrent_refresh_not_single_flight :
    runSchedule 1000 (some ⟨"newA", "newR", 10000⟩)
      ⟨⟨some ⟨"oldA", "oldR", 0⟩, some ⟨"oldA", "oldR", 0⟩⟩, 0⟩
      [false, true, false, true] =
      (⟨⟨some ⟨"newA", "newR", 10000⟩, some ⟨"newA", "newR", 10000⟩⟩, 2⟩,
       TaskPC.done (some "newA"), TaskPC.done (some "newA")) ∧
    (2 : Nat) ≠ 1 := ⟨by rfl, by decide⟩
